import Mathlib

/-!
Shallow embedding of the synology-guru learning-and-alerting engine
(`src/memory/models.py`, `src/memory/store.py`, `src/agents/base.py`,
`src/agents/learning.py`, `src/orchestrator/orchestrator.py`, and the
exception handlers of the six domain agents' `check()` methods).

Conventions of the embedding:
* Python floats are modelled by exact rationals (`ℚ`); the spec itself
  states its numeric contracts "up to floating rounding".
* Timestamps (`datetime`) are rationals measured in days, so the 30-day
  retention cutoff is `now - 30`.
* Python dicts keyed by `f"{agent}:{metric}"` strings are association
  lists with in-place replacement on key collision, which preserves the
  insertion order that `dict.values()` iteration exposes.
* Context maps (`dict[str, Any]` of scalars) are association lists from
  strings to a tagged scalar value type.
-/

/-- A scalar context value: Python contexts hold strings, numbers and
booleans compared by equality. -/
inductive Value where
  | str (s : String)
  | num (q : ℚ)
  | bool (b : Bool)
deriving DecidableEq

/-- A context map (`dict[str, Any]`), as an association list. -/
abbrev Ctx := List (String × Value)

/-- Priority levels from `src/agents/base.py` (`class Priority(IntEnum)`). -/
inductive Priority where
  | critical
  | high
  | medium
  | low
  | info
deriving DecidableEq

/-- Numeric value of a priority: CRITICAL=0, HIGH=1, MEDIUM=2, LOW=3, INFO=4. -/
def Priority.toNat : Priority → Nat
  | .critical => 0
  | .high => 1
  | .medium => 2
  | .low => 3
  | .info => 4

/-- Feedback item from an agent (`src/agents/base.py`, `@dataclass Feedback`).
The `timestamp` field (wall-clock creation time, never read by the engine
logic under verification) is omitted. -/
structure Feedback where
  priority : Priority
  category : String
  message : String
  details : Option String
deriving DecidableEq

/-- An observation (`src/memory/models.py`, `@dataclass Observation`).
`value` in the source is `Any`; only numeric values (the ones that update
baselines, and the only ones the claims concern) are modelled. -/
structure Observation where
  agent : String
  metric : String
  value : ℚ
  timestamp : ℚ
  context : Ctx
deriving DecidableEq

/-- A learned baseline (`src/memory/models.py`, `@dataclass Baseline`).
The source stores `std_dev`; this embedding stores its square `variance`
(`std_dev = √variance`).  This is exact: the baseline-update code reads
`std_dev` only as `std_dev ** 2`, and the anomaly test is re-expressed
through `variance` below; theorem `C5_is_anomaly_spec` proves that
re-expression equivalent to the source's `|x − mean| / std_dev > s` test. -/
structure Baseline where
  agent : String
  metric : String
  mean : ℚ
  variance : ℚ
  min_value : ℚ
  max_value : ℚ
  sample_count : ℕ
  last_updated : ℚ
deriving DecidableEq

/-- `Baseline.is_anomaly` (`src/memory/models.py` lines 53–58):
`if std_dev == 0: return value != mean; z = |value - mean| / std_dev;
return z > sensitivity`.  With `std_dev = √variance ≥ 0` this equals the
decidable variance form below: `std_dev = 0` iff `variance = 0`, and for
`std_dev > 0`, `z > s` iff `s < 0` or `(value − mean)² > s² · variance`. -/
def Baseline.is_anomaly (b : Baseline) (value : ℚ) (sensitivity : ℚ) : Bool :=
  if b.variance = 0 then
    decide (value ≠ b.mean)
  else
    decide (sensitivity < 0) || decide ((value - b.mean) ^ 2 > sensitivity ^ 2 * b.variance)

/-- A learned pattern (`src/memory/models.py`, `@dataclass Pattern`). -/
structure Pattern where
  agent : String
  name : String
  description : String
  condition : Ctx
  action : String
  confidence : ℚ
  occurrences : ℕ
  last_triggered : Option ℚ
  created_at : ℚ
deriving DecidableEq

/-- User feedback on an alert (`src/memory/models.py`, `@dataclass UserFeedback`). -/
structure UserFeedback where
  agent : String
  alert_type : String
  feedback : String
  context : Ctx
  timestamp : ℚ
deriving DecidableEq

/-- Insert-or-replace in an association list, keeping the position of an
existing key: the semantics of assignment into a Python dict, whose
iteration order is insertion order. -/
def dictInsert {α : Type} (l : List (String × α)) (k : String) (v : α) :
    List (String × α) :=
  match l with
  | [] => [(k, v)]
  | (k', v') :: t => if k' = k then (k, v) :: t else (k', v') :: dictInsert t k v

/-- The dict key `f"{a}:{b}"` used by the store for baselines
(`agent:metric`) and patterns (`agent:name`). -/
def mkKey (a b : String) : String := a ++ ":" ++ b

/-- Key lookup in an association list: the semantics of `dict.get`. -/
def dictLookup {α : Type} (l : List (String × α)) (k : String) : Option α :=
  match l with
  | [] => none
  | (k', v) :: t => if k' = k then some v else dictLookup t k

theorem dictLookup_dictInsert {α : Type} (l : List (String × α)) (k k' : String) (v : α) :
    dictLookup (dictInsert l k v) k' = if k = k' then some v else dictLookup l k' := by
  induction l with
  | nil => simp [dictInsert, dictLookup]
  | cons h t ih =>
    obtain ⟨k₀, v₀⟩ := h
    by_cases hk : k₀ = k
    · subst hk
      by_cases hk' : k₀ = k' <;> simp [dictInsert, dictLookup, hk']
    · by_cases hk' : k₀ = k'
      · subst hk'
        have hne : ¬ k = k₀ := fun h => hk h.symm
        simp [dictInsert, hk, dictLookup, hne]
      · simp [dictInsert, hk, dictLookup, hk', ih]

theorem dictLookup_dictInsert_self {α : Type} (l : List (String × α)) (k : String) (v : α) :
    dictLookup (dictInsert l k v) k = some v := by
  simp [dictLookup_dictInsert]

/-- The in-memory caches of `MemoryStore` (`src/memory/store.py` lines 25–29):
observations list, baselines dict keyed `agent:metric`, patterns dict keyed
`agent:name`, user-feedback list. -/
structure StoreData where
  observations : List Observation
  baselines : List (String × Baseline)
  patterns : List (String × Pattern)
  feedback : List UserFeedback
deriving DecidableEq

/-- The four data files of the store (`observations.json`, `baselines.json`,
`patterns.json`, `feedback.json`).  Each save rewrites one file with the full
serialized list; the baseline and pattern files hold the dict's values, keys
being recomputed on load from each record's own fields.  JSON encoding and
decoding of the records is assumed faithful (`to_dict`/`from_dict` round-trip
field by field). -/
structure DiskData where
  obsFile : List Observation
  baseFile : List Baseline
  patFile : List Pattern
  fbFile : List UserFeedback
deriving DecidableEq

/-- A memory store: in-memory caches plus the state of its data directory. -/
structure MemoryStore where
  mem : StoreData
  disk : DiskData
deriving DecidableEq

/-- `MemoryStore.__init__` + `_load_all` on an existing data directory:
rebuild the caches from the files, recomputing the dict keys
(`f"{b['agent']}:{b['metric']}"`, `f"{p['agent']}:{p['name']}"`). -/
def loadStore (d : DiskData) : MemoryStore :=
  { mem :=
      { observations := d.obsFile
        baselines := d.baseFile.map (fun b => (mkKey b.agent b.metric, b))
        patterns := d.patFile.map (fun p => (mkKey p.agent p.name, p))
        feedback := d.fbFile }
    disk := d }

/-- A store over a fresh (empty) data directory. -/
def emptyStore : MemoryStore :=
  { mem := ⟨[], [], [], []⟩, disk := ⟨[], [], [], []⟩ }

/-- `MemoryStore._save_observations`: prune the in-memory observations to the
last 30 days (keep `timestamp > now − 30 days`; time is in days here) and
write the pruned list to disk. -/
def MemoryStore.save_observations (now : ℚ) (s : MemoryStore) : MemoryStore :=
  let pruned := s.mem.observations.filter (fun o => decide (now - 30 < o.timestamp))
  { s with mem := { s.mem with observations := pruned },
           disk := { s.disk with obsFile := pruned } }

/-- `MemoryStore._save_baselines`: write all baseline dict values to disk. -/
def MemoryStore.save_baselines (s : MemoryStore) : MemoryStore :=
  { s with disk := { s.disk with baseFile := s.mem.baselines.map Prod.snd } }

/-- `MemoryStore._save_patterns`: write all pattern dict values to disk. -/
def MemoryStore.save_patterns (s : MemoryStore) : MemoryStore :=
  { s with disk := { s.disk with patFile := s.mem.patterns.map Prod.snd } }

/-- `MemoryStore._save_feedback`: write the feedback list to disk. -/
def MemoryStore.save_feedback (s : MemoryStore) : MemoryStore :=
  { s with disk := { s.disk with fbFile := s.mem.feedback } }

/-- The Welford step of `MemoryStore._update_baseline` (store.py lines
150–169) on an existing baseline, with `variance` in place of `std_dev`
(the source computes `new_variance = (std_dev ** 2 * (n - 1) + delta *
delta2) / n` and stores `std_dev = sqrt(new_variance)`; see `Baseline`). -/
def updateBaseline (b : Baseline) (value now : ℚ) : Baseline :=
  let n : ℕ := b.sample_count + 1
  let delta := value - b.mean
  let newMean := b.mean + delta / (n : ℚ)
  let delta2 := value - newMean
  let newVariance := if 1 < n then (b.variance * ((n : ℚ) - 1) + delta * delta2) / (n : ℚ) else 0
  { b with mean := newMean, variance := newVariance,
           min_value := min b.min_value value, max_value := max b.max_value value,
           sample_count := n, last_updated := now }

/-- The creation branch of `MemoryStore._update_baseline` (store.py lines
139–149): a fresh baseline from a single value. -/
def newBaseline (agent metric : String) (value now : ℚ) : Baseline :=
  { agent := agent, metric := metric, mean := value, variance := 0,
    min_value := value, max_value := value, sample_count := 1, last_updated := now }

/-- `MemoryStore._update_baseline` (store.py lines 134–171): create or update
the baseline at key `agent:metric`, then save baselines. -/
def MemoryStore.update_baseline (now : ℚ) (obs : Observation) (s : MemoryStore) : MemoryStore :=
  let key := mkKey obs.agent obs.metric
  let b' := match dictLookup s.mem.baselines key with
    | none => newBaseline obs.agent obs.metric obs.value now
    | some b => updateBaseline b obs.value now
  MemoryStore.save_baselines
    { s with mem := { s.mem with baselines := dictInsert s.mem.baselines key b' } }

/-- `MemoryStore.record_observation` (store.py lines 108–115): append the
observation, save (which prunes), and — the modelled values being numeric —
update the baseline. -/
def MemoryStore.record_observation (now : ℚ) (obs : Observation) (s : MemoryStore) : MemoryStore :=
  let s1 := MemoryStore.save_observations now
    { s with mem := { s.mem with observations := s.mem.observations ++ [obs] } }
  MemoryStore.update_baseline now obs s1

/-- `MemoryStore.get_baseline`. -/
def MemoryStore.get_baseline (s : MemoryStore) (agent metric : String) : Option Baseline :=
  dictLookup s.mem.baselines (mkKey agent metric)

/-- `MemoryStore.is_anomaly` (store.py lines 177–188): false when there is no
baseline or fewer than 10 samples, else the baseline's anomaly test. -/
def MemoryStore.is_anomaly (s : MemoryStore) (agent metric : String)
    (value sensitivity : ℚ) : Bool :=
  match s.get_baseline agent metric with
  | none => false
  | some b => if b.sample_count < 10 then false else b.is_anomaly value sensitivity

/-- `MemoryStore.add_pattern`: upsert at key `agent:name` and save. -/
def MemoryStore.add_pattern (p : Pattern) (s : MemoryStore) : MemoryStore :=
  MemoryStore.save_patterns
    { s with mem := { s.mem with patterns := dictInsert s.mem.patterns (mkKey p.agent p.name) p } }

/-- `MemoryStore.get_pattern`. -/
def MemoryStore.get_pattern (s : MemoryStore) (agent name : String) : Option Pattern :=
  dictLookup s.mem.patterns (mkKey agent name)

/-- `MemoryStore.get_patterns`: all pattern values for an agent, in dict
(insertion) order. -/
def MemoryStore.get_patterns (s : MemoryStore) (agent : String) : List Pattern :=
  (s.mem.patterns.map Prod.snd).filter (fun p => decide (p.agent = agent))

/-- `MemoryStore.trigger_pattern` (store.py lines 206–212): increment
`occurrences`, set `last_triggered`, save; no-op when the pattern is absent. -/
def MemoryStore.trigger_pattern (now : ℚ) (agent name : String) (s : MemoryStore) : MemoryStore :=
  match s.get_pattern agent name with
  | none => s
  | some p =>
      let p' : Pattern :=
        { p with occurrences := p.occurrences + 1, last_triggered := some now }
      MemoryStore.save_patterns
        { s with mem := { s.mem with patterns := dictInsert s.mem.patterns (mkKey agent name) p' } }

/-- `MemoryStore._learn_from_feedback` (store.py lines 224–244).  On a
`false_positive`: reinforce an existing `suppress_<alert_type>` pattern
(`confidence ← min(1.0, confidence + 0.1)`, `occurrences += 1`) or create it
at confidence 0.5.  The reinforcement branch mutates the cached pattern but
does not call `_save_patterns`; the embedding reproduces that (no
`save_patterns` there). -/
def MemoryStore.learn_from_feedback (now : ℚ) (fb : UserFeedback) (s : MemoryStore) : MemoryStore :=
  if fb.feedback = "false_positive" then
    let pname := "suppress_" ++ fb.alert_type
    match s.get_pattern fb.agent pname with
    | some ex =>
        let ex' : Pattern :=
          { ex with confidence := min 1 (ex.confidence + 1/10),
                    occurrences := ex.occurrences + 1 }
        { s with mem := { s.mem with patterns := dictInsert s.mem.patterns (mkKey fb.agent pname) ex' } }
    | none =>
        MemoryStore.add_pattern
          { agent := fb.agent, name := pname,
            description := "Auto-learned: suppress " ++ fb.alert_type ++ " alerts",
            condition := fb.context, action := "ignore", confidence := 1/2,
            occurrences := 1, last_triggered := none, created_at := now } s
  else s

/-- `MemoryStore.record_feedback` (store.py lines 216–222): append, save,
then auto-learn. -/
def MemoryStore.record_feedback (now : ℚ) (fb : UserFeedback) (s : MemoryStore) : MemoryStore :=
  MemoryStore.learn_from_feedback now fb
    (MemoryStore.save_feedback { s with mem := { s.mem with feedback := s.mem.feedback ++ [fb] } })

/-- `MemoryStore.get_false_positive_rate` (store.py lines 246–255). -/
def MemoryStore.get_false_positive_rate (s : MemoryStore) (agent alert_type : String) : ℚ :=
  let relevant := s.mem.feedback.filter
    (fun f => decide (f.agent = agent) && decide (f.alert_type = alert_type))
  if relevant = [] then 0
  else (relevant.countP (fun f => decide (f.feedback = "false_positive")) : ℚ) / (relevant.length : ℚ)

/-- State of a learning agent (`BaseAgent.__init__` + `LearningAgent.__init__`):
the class-level `name`, the shared memory store, the per-alert-type
sensitivity overrides `_sensitivity`, and the pending feedback `_feedback`. -/
structure AgentState where
  name : String
  memory : MemoryStore
  sensitivity : List (String × ℚ)
  feedbackList : List Feedback
deriving DecidableEq

/-- `LearningAgent.DEFAULT_SENSITIVITY`. -/
def DEFAULT_SENSITIVITY : ℚ := 2

/-- `BaseAgent.add_feedback`: append one feedback with `category = self.name`. -/
def AgentState.add_feedback (st : AgentState) (priority : Priority) (message : String)
    (details : Option String) : AgentState :=
  { st with feedbackList := st.feedbackList ++ [⟨priority, st.name, message, details⟩] }

/-- `BaseAgent.get_feedback`: return a copy of the feedback list and clear it. -/
def AgentState.get_feedback (st : AgentState) : List Feedback × AgentState :=
  (st.feedbackList, { st with feedbackList := [] })

/-- `LearningAgent.observe`: record an observation under the agent's name
(the observation's timestamp defaults to now). -/
def AgentState.observe (st : AgentState) (now : ℚ) (metric : String) (value : ℚ)
    (context : Ctx) : AgentState :=
  { st with memory := st.memory.record_observation now ⟨st.name, metric, value, now, context⟩ }

/-- `LearningAgent.is_anomaly` (learning.py lines 55–58): look up the
sensitivity override stored under the metric's name, default 2.0, and
delegate to the store's anomaly test. -/
def AgentState.is_anomaly (st : AgentState) (metric : String) (value : ℚ) : Bool :=
  let sensitivity := (dictLookup st.sensitivity metric).getD DEFAULT_SENSITIVITY
  st.memory.is_anomaly st.name metric value sensitivity

/-- `LearningAgent._matches_pattern`: every key of the pattern's condition
must be present in the context with an equal value; extra context keys are
ignored. -/
def matchesPattern (p : Pattern) (context : Ctx) : Bool :=
  p.condition.all (fun kv => decide (dictLookup context kv.1 = some kv.2))

/-- `LearningAgent.should_suppress_alert` (learning.py lines 74–89): scan the
agent's patterns in order; the first one with `action == "ignore"`,
`confidence ≥ 0.7` and a matching condition is triggered in the store and
suppresses.  The `alert_type` parameter is unused in the source's matching,
as it is here. -/
def AgentState.should_suppress_alert (st : AgentState) (now : ℚ) (alert_type : String)
    (context : Ctx) : Bool × AgentState :=
  match (st.memory.get_patterns st.name).find?
      (fun p => decide (p.action = "ignore") && decide ((7 : ℚ)/10 ≤ p.confidence)
        && matchesPattern p context) with
  | some p => (true, { st with memory := st.memory.trigger_pattern now st.name p.name })
  | none => (false, st)

/-- `LearningAgent.add_feedback_with_context` (learning.py lines 100–117):
if the alert is suppressed, downgrade it to `info` and tag the message with
`"[Suppressed] "`; in either case append exactly one feedback. -/
def AgentState.add_feedback_with_context (st : AgentState) (now : ℚ) (priority : Priority)
    (message : String) (alert_type : String) (context : Ctx) (details : Option String) :
    AgentState :=
  let r := st.should_suppress_alert now alert_type context
  if r.1 then
    r.2.add_feedback Priority.info ("[Suppressed] " ++ message) details
  else
    r.2.add_feedback priority message details

/-- `LearningAgent.receive_user_feedback` (learning.py lines 119–146):
record the user feedback in the store (which may auto-learn a suppression
pattern), then adjust the per-alert-type sensitivity: `too_sensitive` sets
`min(4.0, s + 0.5)`, `too_late` sets `max(1.0, s - 0.5)`, with `s`
defaulting to 2.0; other feedback kinds leave it unchanged. -/
def AgentState.receive_user_feedback (st : AgentState) (now : ℚ) (alert_type : String)
    (feedback : String) (context : Ctx) : AgentState :=
  let st1 : AgentState :=
    { st with memory := st.memory.record_feedback now ⟨st.name, alert_type, feedback, context, now⟩ }
  if feedback = "too_sensitive" then
    let current := (dictLookup st1.sensitivity alert_type).getD DEFAULT_SENSITIVITY
    { st1 with sensitivity := dictInsert st1.sensitivity alert_type (min 4 (current + 1/2)) }
  else if feedback = "too_late" then
    let current := (dictLookup st1.sensitivity alert_type).getD DEFAULT_SENSITIVITY
    { st1 with sensitivity := dictInsert st1.sensitivity alert_type (max 1 (current - 1/2)) }
  else st1

/-- Result of one agent execution (`AgentResult` in orchestrator.py). -/
structure AgentResult where
  agent_name : String
  feedback : List Feedback
  error : Option String
deriving DecidableEq

/-- The synthetic feedback `aggregate_feedback` prepends for a result whose
`error` is truthy (not `None` and non-empty): one `high` feedback with
`category = agent_name` and message `"Agent error: <error>"`. -/
def errFeedback (r : AgentResult) : List Feedback :=
  match r.error with
  | some e => if e = "" then [] else [⟨Priority.high, r.agent_name, "Agent error: " ++ e, none⟩]
  | none => []

/-- The comparison performed by
`sorted(filtered, key=lambda f: (f.priority, f.category))`: lexicographic on
numeric priority, then category. -/
def feedbackLE (a b : Feedback) : Bool :=
  decide (a.priority.toNat < b.priority.toNat) ||
    (decide (a.priority.toNat = b.priority.toNat) && decide (a.category ≤ b.category))

/-- `SynologyGuru.aggregate_feedback` (orchestrator.py lines 57–79): per
result, the synthetic error feedback (if any) followed by the result's
feedback; then filter to `priority ≤ min_priority` and stable-sort by
`(priority, category)`. -/
def aggregate_feedback (results : List AgentResult) (min_priority : Priority) : List Feedback :=
  let all_feedback := results.flatMap (fun r => errFeedback r ++ r.feedback)
  let filtered := all_feedback.filter (fun f => decide (f.priority.toNat ≤ min_priority.toNat))
  filtered.mergeSort feedbackLE

/-- The feedback list returned by `SynologyGuru.check_health` (orchestrator.py
lines 154–164): aggregation of the agent results at the default
`min_priority = Priority.LOW`. -/
def check_health_feedback (results : List AgentResult) : List Feedback :=
  aggregate_feedback results Priority.low

/-- One feedback-emitting step of a domain agent's `check()` body in terms of
the substrate: a plain `add_feedback` or a contextual
`add_feedback_with_context`. -/
inductive AgentCmd where
  | plain (priority : Priority) (message : String) (details : Option String)
  | withContext (priority : Priority) (message : String) (alert_type : String)
      (context : Ctx) (details : Option String)
deriving DecidableEq

/-- The message an `AgentCmd` carries. -/
def AgentCmd.message : AgentCmd → String
  | .plain _ m _ => m
  | .withContext _ m _ _ _ => m

/-- Execute one feedback-emitting step on the agent state. -/
def execCmd (now : ℚ) (st : AgentState) : AgentCmd → AgentState
  | .plain p m d => st.add_feedback p m d
  | .withContext p m t c d => st.add_feedback_with_context now p m t c d

/-- Execute a sequence of feedback-emitting steps. -/
def execCmds (now : ℚ) (st : AgentState) (cmds : List AgentCmd) : AgentState :=
  cmds.foldl (execCmd now) st

/-- `SynologyGuru.run_agent` on an agent whose `check()` performs the given
feedback-emitting steps and returns `get_feedback()` without raising. -/
def runAgentOk (now : ℚ) (st : AgentState) (cmds : List AgentCmd) : AgentResult :=
  ⟨st.name, (execCmds now st cmds).get_feedback.1, none⟩

/-- `SynologyGuru.run_agent` on an agent whose `check()` raises: the wrapper
catches the exception and produces an error result with empty feedback. -/
def runAgentErr (name e : String) : AgentResult := ⟨name, [], some e⟩

/-- One element of an orchestrator run: an agent that completed its `check()`
(with its initial state and emitted steps) or one that raised. -/
inductive RunItem where
  | ok (now : ℚ) (st : AgentState) (cmds : List AgentCmd)
  | failed (name : String) (e : String)

/-- The `AgentResult` of one run element. -/
def RunItem.result : RunItem → AgentResult
  | .ok now st cmds => runAgentOk now st cmds
  | .failed name e => runAgentErr name e

/-- The six domain agents. -/
inductive AgentKind where
  | storage
  | backup
  | disks
  | security
  | logs
  | updates
deriving DecidableEq

/-- The class-level `name` attribute of each domain agent. -/
def agentName : AgentKind → String
  | .storage => "storage"
  | .backup => "backup"
  | .disks => "disks"
  | .security => "security"
  | .logs => "logs"
  | .updates => "updates"

/-- For each guarded `try` section of the agent's `check()` (in order), the
feedback its `except Exception` handler adds: priority and message prefix,
read off the six agents' `check()` methods.  Every section's `try` body
opens with the external API call(s), so when that call raises the handler's
feedback is the section's only effect. -/
def apiHandlers : AgentKind → List (Priority × String)
  | .storage => [(Priority.high, "Could not retrieve storage information: ")]
  | .backup => [(Priority.high, "Failed to retrieve backup information: ")]
  | .disks => [(Priority.high, "Could not retrieve disk information: ")]
  | .security => [(Priority.medium, "Could not retrieve security scan: "),
                  (Priority.medium, "Could not retrieve connection logs: ")]
  | .logs => [(Priority.medium, "Could not retrieve system logs: ")]
  | .updates => [(Priority.medium, "Could not check for updates: ")]

/-- `check()` of a domain agent in a run where every external API call
raises (`errs` lists the exception messages, one per guarded section, in
order): each `try` body raises at its opening client call, each `except`
handler adds one feedback, and the agent returns `get_feedback()`.  Yields
the returned list together with the agent state after the run. -/
def checkAllApiCallsFail (k : AgentKind) (errs : List String) : List Feedback × AgentState :=
  let st0 : AgentState := ⟨agentName k, emptyStore, [], []⟩
  let st1 := ((apiHandlers k).zip errs).foldl
    (fun st he => st.add_feedback he.1.1 (he.1.2 ++ he.2) none) st0
  st1.get_feedback

theorem should_suppress_alert_snd_feedbackList (st : AgentState) (now : ℚ)
    (alert_type : String) (context : Ctx) :
    (st.should_suppress_alert now alert_type context).2.feedbackList = st.feedbackList := by
  unfold AgentState.should_suppress_alert
  cases h : (st.memory.get_patterns st.name).find?
      (fun p => decide (p.action = "ignore") && decide ((7 : ℚ)/10 ≤ p.confidence)
        && matchesPattern p context) <;> simp

theorem should_suppress_alert_snd_name (st : AgentState) (now : ℚ)
    (alert_type : String) (context : Ctx) :
    (st.should_suppress_alert now alert_type context).2.name = st.name := by
  unfold AgentState.should_suppress_alert
  cases h : (st.memory.get_patterns st.name).find?
      (fun p => decide (p.action = "ignore") && decide ((7 : ℚ)/10 ≤ p.confidence)
        && matchesPattern p context) <;> simp

/-- C6: `add_feedback_with_context(priority, message, alert_type, context,
details)` appends exactly one feedback entry to the agent's feedback list:
when a suppression pattern matches (`should_suppress_alert` returns true)
the entry has priority `info` and message `"[Suppressed] "` prepended to the
original message, and otherwise it has the original priority and message —
a suppressed alert is never silently dropped. -/
theorem C6_add_feedback_with_context_non_lossy
    (st : AgentState) (now : ℚ) (priority : Priority) (message : String)
    (alert_type : String) (context : Ctx) (details : Option String) :
    (st.add_feedback_with_context now priority message alert_type context details).feedbackList
      = st.feedbackList ++
        [if (st.should_suppress_alert now alert_type context).1 then
           { priority := Priority.info, category := st.name,
             message := "[Suppressed] " ++ message, details := details }
         else
           { priority := priority, category := st.name,
             message := message, details := details }] := by
  have h1 := should_suppress_alert_snd_feedbackList st now alert_type context
  have h2 := should_suppress_alert_snd_name st now alert_type context
  unfold AgentState.add_feedback_with_context
  by_cases h : (st.should_suppress_alert now alert_type context).1 <;>
    simp [h, AgentState.add_feedback, h1, h2]

/-- C1 counterexample: in a run of `SecurityAgent.check()` where both
external API calls raise, the returned list contains two feedbacks, both of
priority `medium` and none of priority `high` — against the claim that any
API exception yields exactly one `high` feedback. -/
theorem C1_counterexample :
    (checkAllApiCallsFail AgentKind.security ["Scan error", "Log error"]).1.length = 2
    ∧ (∀ f ∈ (checkAllApiCallsFail AgentKind.security ["Scan error", "Log error"]).1,
        f.priority = Priority.medium)
    ∧ (checkAllApiCallsFail AgentKind.security ["Scan error", "Log error"]).1.countP
        (fun f => decide (f.priority = Priority.high)) = 0 := by
  decide

theorem add_feedback_foldl_handlers (l : List ((Priority × String) × String))
    (st : AgentState) :
    (l.foldl (fun st he => st.add_feedback he.1.1 (he.1.2 ++ he.2) none) st).feedbackList
        = st.feedbackList ++ l.map
            (fun he => { priority := he.1.1, category := st.name,
                         message := he.1.2 ++ he.2, details := none })
      ∧ (l.foldl (fun st he => st.add_feedback he.1.1 (he.1.2 ++ he.2) none) st).name
        = st.name := by
  induction l generalizing st with
  | nil => simp
  | cons h t ih =>
    obtain ⟨ih1, ih2⟩ := ih (st.add_feedback h.1.1 (h.1.2 ++ h.2) none)
    refine ⟨?_, ?_⟩
    · rw [List.foldl_cons, ih1]
      simp [AgentState.add_feedback, List.append_assoc]
    · rw [List.foldl_cons]
      rw [ih2]
      simp [AgentState.add_feedback]

/-- C1 amended: when every external API call inside a domain agent's
`check()` raises, `check()` returns normally; each guarded call contributes
exactly one feedback whose message is the handler's prefix followed by the
exception text, and its priority is `high` for the storage, backup and disks
agents but `medium` for the security, logs and updates agents (the security
agent runs two guarded calls and emits one such feedback per failure). -/
theorem C1_api_failure_feedback (k : AgentKind) (errs : List String)
    (h : errs.length = (apiHandlers k).length) :
    (checkAllApiCallsFail k errs).1
        = ((apiHandlers k).zip errs).map
            (fun he => { priority := he.1.1, category := agentName k,
                         message := he.1.2 ++ he.2, details := none })
      ∧ (checkAllApiCallsFail k errs).1.length = errs.length
      ∧ (checkAllApiCallsFail k errs).2.feedbackList = []
      ∧ ∀ f ∈ (checkAllApiCallsFail k errs).1,
          (f.priority = Priority.high
            ↔ (k = AgentKind.storage ∨ k = AgentKind.backup ∨ k = AgentKind.disks)) := by
  obtain ⟨h1, _⟩ := add_feedback_foldl_handlers ((apiHandlers k).zip errs)
    ⟨agentName k, emptyStore, [], []⟩
  have hout : (checkAllApiCallsFail k errs).1
      = ((apiHandlers k).zip errs).map
          (fun he => { priority := he.1.1, category := agentName k,
                       message := he.1.2 ++ he.2, details := none }) := by
    simpa [checkAllApiCallsFail, AgentState.get_feedback] using h1
  refine ⟨hout, ?_, ?_, ?_⟩
  · rw [hout]
    simp [List.length_zip, h]
  · simp [checkAllApiCallsFail, AgentState.get_feedback]
  · intro f hf
    rw [hout] at hf
    simp only [List.mem_map] at hf
    obtain ⟨he, hhe, rfl⟩ := hf
    have hmem : he.1 ∈ apiHandlers k := List.of_mem_zip hhe |>.1
    cases k <;> simp [apiHandlers] at hmem ⊢ <;>
      first
        | (rcases hmem with h' | h' <;> simp [h'])
        | simp [hmem]

/-- C1 witness: the storage agent with its single API call failing returns
exactly one `high` feedback with the handler's message. -/
theorem C1_api_failure_feedback_witness :
    (["API timeout"].length = (apiHandlers AgentKind.storage).length)
    ∧ ((checkAllApiCallsFail AgentKind.storage ["API timeout"]).1
        = ((apiHandlers AgentKind.storage).zip ["API timeout"]).map
            (fun he => { priority := he.1.1, category := agentName AgentKind.storage,
                         message := he.1.2 ++ he.2, details := none })
      ∧ (checkAllApiCallsFail AgentKind.storage ["API timeout"]).1.length = ["API timeout"].length
      ∧ (checkAllApiCallsFail AgentKind.storage ["API timeout"]).2.feedbackList = []
      ∧ ∀ f ∈ (checkAllApiCallsFail AgentKind.storage ["API timeout"]).1,
          (f.priority = Priority.high
            ↔ (AgentKind.storage = AgentKind.storage ∨ AgentKind.storage = AgentKind.backup
                ∨ AgentKind.storage = AgentKind.disks))) :=
  ⟨by decide, C1_api_failure_feedback AgentKind.storage ["API timeout"] (by decide)⟩

/-- Reconstructing a `MemoryStore` over the same data directory
(`MemoryStore(data_dir)` on the directory's current contents). -/
def reloadStore (s : MemoryStore) : MemoryStore := loadStore s.disk

/-- C3 (code bug exhibit): the reinforcement branch of
`_learn_from_feedback` bumps a pattern's confidence and occurrences in the
in-memory cache without calling `_save_patterns`, so the store state after
two `false_positive` feedbacks on the same alert type does not survive a
reload: the pre-reload pattern has confidence 0.6 and 2 occurrences, the
reloaded one confidence 0.5 and 1 occurrence. -/
theorem C3_persistence_code_bug :
    ((((emptyStore.record_feedback 0 ⟨"a", "w", "false_positive", [], 0⟩).record_feedback 0
        ⟨"a", "w", "false_positive", [], 0⟩).get_pattern "a" "suppress_w").map
          (fun p => (p.confidence, p.occurrences)) = some (3/5, 2))
    ∧ (((reloadStore ((emptyStore.record_feedback 0 ⟨"a", "w", "false_positive", [], 0⟩).record_feedback 0
        ⟨"a", "w", "false_positive", [], 0⟩)).get_pattern "a" "suppress_w").map
          (fun p => (p.confidence, p.occurrences)) = some (1/2, 1))
    ∧ reloadStore ((emptyStore.record_feedback 0 ⟨"a", "w", "false_positive", [], 0⟩).record_feedback 0
        ⟨"a", "w", "false_positive", [], 0⟩)
        ≠ (emptyStore.record_feedback 0 ⟨"a", "w", "false_positive", [], 0⟩).record_feedback 0
        ⟨"a", "w", "false_positive", [], 0⟩ := by
  have h1 : (((emptyStore.record_feedback 0 ⟨"a", "w", "false_positive", [], 0⟩).record_feedback 0
      ⟨"a", "w", "false_positive", [], 0⟩).get_pattern "a" "suppress_w").map
        (fun p => (p.confidence, p.occurrences)) = some (3/5, 2) := by
    simp +decide [MemoryStore.record_feedback, MemoryStore.learn_from_feedback,
      MemoryStore.save_feedback, MemoryStore.save_patterns, MemoryStore.add_pattern,
      MemoryStore.get_pattern, emptyStore, mkKey, dictLookup, dictInsert]
    norm_num [min_def]
  have h2 : (((reloadStore ((emptyStore.record_feedback 0 ⟨"a", "w", "false_positive", [], 0⟩).record_feedback 0
      ⟨"a", "w", "false_positive", [], 0⟩)).get_pattern "a" "suppress_w").map
        (fun p => (p.confidence, p.occurrences)) = some (1/2, 1)) := by
    simp +decide [MemoryStore.record_feedback, MemoryStore.learn_from_feedback,
      MemoryStore.save_feedback, MemoryStore.save_patterns, MemoryStore.add_pattern,
      MemoryStore.get_pattern, emptyStore, mkKey, dictLookup, dictInsert,
      reloadStore, loadStore]
  refine ⟨h1, h2, fun heq => ?_⟩
  rw [heq, h1] at h2
  have : (3/5 : ℚ) = 1/2 := by
    have := Option.some.inj h2
    exact (Prod.mk.injEq _ _ _ _ ▸ this).1
  norm_num at this

theorem record_feedback_fp_new (s : MemoryStore) (now : ℚ) (a t : String) (ctx : Ctx)
    (h : s.get_pattern a ("suppress_" ++ t) = none) :
    (s.record_feedback now ⟨a, t, "false_positive", ctx, now⟩).get_pattern a ("suppress_" ++ t)
      = some ⟨a, "suppress_" ++ t, "Auto-learned: suppress " ++ t ++ " alerts",
              ctx, "ignore", 1/2, 1, none, now⟩ := by
  unfold MemoryStore.get_pattern at h
  simp [MemoryStore.record_feedback, MemoryStore.learn_from_feedback, MemoryStore.save_feedback,
        MemoryStore.get_pattern, MemoryStore.add_pattern, MemoryStore.save_patterns,
        h, dictLookup_dictInsert_self]

theorem record_feedback_fp_existing (s : MemoryStore) (now : ℚ) (a t : String) (ctx : Ctx)
    (p : Pattern) (h : s.get_pattern a ("suppress_" ++ t) = some p) :
    (s.record_feedback now ⟨a, t, "false_positive", ctx, now⟩).get_pattern a ("suppress_" ++ t)
      = some { p with confidence := min 1 (p.confidence + 1/10),
                      occurrences := p.occurrences + 1 } := by
  unfold MemoryStore.get_pattern at h
  simp [MemoryStore.record_feedback, MemoryStore.learn_from_feedback, MemoryStore.save_feedback,
        MemoryStore.get_pattern, MemoryStore.add_pattern, MemoryStore.save_patterns,
        h, dictLookup_dictInsert_self]

theorem receive_fp_as_record (st : AgentState) (now : ℚ) (t : String) (ctx : Ctx) :
    st.receive_user_feedback now t "false_positive" ctx
      = { st with memory := st.memory.record_feedback now ⟨st.name, t, "false_positive", ctx, now⟩ } := by
  unfold AgentState.receive_user_feedback
  simp +decide

/-- Confidence of the auto-learned suppression pattern after `k + 1`
`false_positive` feedbacks: created at 0.5, then bumped by `min(1, · + 0.1)`. -/
def rampConfidence : ℕ → ℚ
  | 0 => 1/2
  | k + 1 => min 1 (rampConfidence k + 1/10)

theorem rampConfidence_eq (k : ℕ) : rampConfidence k = min 1 (1/2 + (k : ℚ)/10) := by
  induction k with
  | zero =>
    rw [rampConfidence]
    rw [eq_comm, min_eq_right (by norm_num)]
    norm_num
  | succ k ih =>
    rw [rampConfidence, ih]
    rcases le_or_lt (1/2 + (k : ℚ)/10) 1 with hle | hgt
    · rw [min_eq_right hle]
      have : (1/2 + (k : ℚ)/10) + 1/10 = 1/2 + ((k + 1 : ℕ) : ℚ)/10 := by push_cast; ring
      rw [this]
    · rw [min_eq_left hgt.le]
      rw [min_eq_left (by norm_num), eq_comm, min_eq_left (by push_cast; linarith)]

theorem C2_ramp_aux (st0 : AgentState) (now : ℚ) (t : String) (ctx : Ctx)
    (h0 : st0.memory.get_pattern st0.name ("suppress_" ++ t) = none) :
    ∀ n : ℕ,
      ((fun st : AgentState => st.receive_user_feedback now t "false_positive" ctx)^[n + 1] st0).name
          = st0.name
      ∧ ((fun st : AgentState => st.receive_user_feedback now t "false_positive" ctx)^[n + 1] st0).memory.get_pattern
            st0.name ("suppress_" ++ t)
          = some ⟨st0.name, "suppress_" ++ t, "Auto-learned: suppress " ++ t ++ " alerts",
                  ctx, "ignore", rampConfidence n, n + 1, none, now⟩ := by
  intro n
  induction n with
  | zero =>
    rw [Function.iterate_one]
    rw [receive_fp_as_record]
    refine ⟨rfl, ?_⟩
    exact record_feedback_fp_new st0.memory now st0.name t ctx h0
  | succ n ih =>
    obtain ⟨ihname, ihpat⟩ := ih
    rw [Function.iterate_succ_apply']
    rw [receive_fp_as_record]
    refine ⟨ihname, ?_⟩
    have hrec := record_feedback_fp_existing _ now st0.name t ctx _ ihpat
    simp only [ihname]
    rw [hrec, rampConfidence]

/-- C2 amended: starting from a store with no `(agent, "suppress_<t>")`
pattern, the n-th `receive_user_feedback(t, "false_positive", ctx)` call
leaves the suppression pattern at confidence `min(1, 0.5 + (n−1)·0.1)` with
`n` occurrences, so five calls yield 0.5, 0.6, 0.7, 0.8, 0.9 after each
call, the value 1.0 being first reached on the sixth call and clamped there
afterwards; the pattern's condition stays equal to the first call's context
throughout. -/
theorem C2_confidence_ramp (st0 : AgentState) (now : ℚ) (t : String) (ctx : Ctx) (n : ℕ)
    (h0 : st0.memory.get_pattern st0.name ("suppress_" ++ t) = none) (hn : 1 ≤ n) :
    ∃ p : Pattern,
      ((fun st : AgentState => st.receive_user_feedback now t "false_positive" ctx)^[n] st0).memory.get_pattern
          st0.name ("suppress_" ++ t) = some p
      ∧ p.confidence = min 1 (1/2 + ((n - 1 : ℕ) : ℚ)/10)
      ∧ p.condition = ctx
      ∧ p.occurrences = n
      ∧ p.action = "ignore" := by
  obtain ⟨m, rfl⟩ : ∃ m, n = m + 1 := ⟨n - 1, (Nat.succ_pred_eq_of_pos hn).symm⟩
  obtain ⟨-, hpat⟩ := C2_ramp_aux st0 now t ctx h0 m
  refine ⟨_, hpat, ?_, rfl, rfl, rfl⟩
  simp only [Nat.add_sub_cancel]
  exact rampConfidence_eq m

/-- C2 witness: three `false_positive` calls on a fresh storage agent leave
the pattern at confidence 0.7 with three occurrences and the original
context as condition. -/
theorem C2_confidence_ramp_witness :
    ((⟨"storage", emptyStore, [], []⟩ : AgentState).memory.get_pattern "storage"
        ("suppress_" ++ "storage_warning") = none ∧ 1 ≤ 3)
    ∧ ∃ p : Pattern,
      ((fun st : AgentState => st.receive_user_feedback 0 "storage_warning" "false_positive"
          [("volume", Value.str "V1")])^[3] (⟨"storage", emptyStore, [], []⟩ : AgentState)).memory.get_pattern
          "storage" ("suppress_" ++ "storage_warning") = some p
      ∧ p.confidence = min 1 (1/2 + ((3 - 1 : ℕ) : ℚ)/10)
      ∧ p.condition = [("volume", Value.str "V1")]
      ∧ p.occurrences = 3
      ∧ p.action = "ignore" :=
  ⟨⟨rfl, by norm_num⟩,
    C2_confidence_ramp ⟨"storage", emptyStore, [], []⟩ 0 "storage_warning"
      [("volume", Value.str "V1")] 3 rfl (by norm_num)⟩

/-- C2 counterexample: on a fresh storage agent, the confidences observed
after each of five successive
`receive_user_feedback("storage_warning", "false_positive", {"volume":"V1"})`
calls are 0.5, 0.6, 0.7, 0.8, 0.9 — five values, never reaching the claimed
final 1.0 (which needs a sixth call). -/
theorem C2_counterexample :
    (let step := fun st : AgentState =>
      st.receive_user_feedback 0 "storage_warning" "false_positive" [("volume", Value.str "V1")]
    let st0 : AgentState := ⟨"storage", emptyStore, [], []⟩
    let confAt := fun st : AgentState =>
      (st.memory.get_pattern "storage" "suppress_storage_warning").map Pattern.confidence
    [confAt (step st0), confAt (step (step st0)), confAt (step (step (step st0))),
     confAt (step (step (step (step st0)))), confAt (step (step (step (step (step st0)))))]
      = [some (1/2), some (3/5), some (7/10), some (4/5), some (9/10)])
    ∧ (9/10 : ℚ) ≠ 1 := by
  constructor
  · simp +decide [AgentState.receive_user_feedback, MemoryStore.record_feedback,
      MemoryStore.learn_from_feedback, MemoryStore.save_feedback, MemoryStore.save_patterns,
      MemoryStore.add_pattern, MemoryStore.get_pattern, emptyStore, mkKey, dictLookup, dictInsert]
    norm_num [min_def]
  · norm_num

theorem is_anomaly_z_iff (b : Baseline) (x sens : ℚ) (hvar : 0 ≤ b.variance)
    (hσ : 0 < Real.sqrt (b.variance : ℝ)) :
    (b.is_anomaly x sens = true ↔
      |(x : ℝ) - (b.mean : ℝ)| / Real.sqrt (b.variance : ℝ) > (sens : ℝ)) := by
  have hvarR : (0 : ℝ) ≤ (b.variance : ℝ) := by exact_mod_cast hvar
  have hvpos : (0 : ℝ) < (b.variance : ℝ) := Real.sqrt_pos.mp hσ
  have hvne : b.variance ≠ 0 := by
    have : (0 : ℚ) < b.variance := by exact_mod_cast hvpos
    exact this.ne'
  unfold Baseline.is_anomaly
  rw [if_neg hvne]
  simp only [Bool.or_eq_true, decide_eq_true_eq, gt_iff_lt]
  rw [lt_div_iff hσ]
  rcases lt_or_le sens 0 with hs | hs
  · have hsR : (sens : ℝ) < 0 := by exact_mod_cast hs
    have : (sens : ℝ) * Real.sqrt (b.variance : ℝ) < |(x : ℝ) - (b.mean : ℝ)| :=
      lt_of_lt_of_le (mul_neg_of_neg_of_pos hsR hσ) (abs_nonneg _)
    simp [hs, this]
  · have hsR : (0 : ℝ) ≤ (sens : ℝ) := by exact_mod_cast hs
    have hns : ¬ (sens < 0) := not_lt.mpr hs
    simp only [hns, false_or]
    constructor
    · intro h
      have hR : ((sens : ℝ)) ^ 2 * (b.variance : ℝ) < ((x : ℝ) - (b.mean : ℝ)) ^ 2 := by
        exact_mod_cast h
      have h2 : ((sens : ℝ) * Real.sqrt (b.variance : ℝ)) ^ 2
          < |(x : ℝ) - (b.mean : ℝ)| ^ 2 := by
        rw [mul_pow, Real.sq_sqrt hvarR, sq_abs]
        exact hR
      exact lt_of_pow_lt_pow_left₀ 2 (abs_nonneg _) h2
    · intro h
      have h2 : ((sens : ℝ) * Real.sqrt (b.variance : ℝ)) ^ 2
          < |(x : ℝ) - (b.mean : ℝ)| ^ 2 :=
        pow_lt_pow_left₀ h (mul_nonneg hsR (Real.sqrt_nonneg _)) (by norm_num)
      rw [mul_pow, Real.sq_sqrt hvarR, sq_abs] at h2
      exact_mod_cast h2

/-- C5: `MemoryStore.is_anomaly(agent, metric, value, sensitivity)` returns
false when no baseline exists or the baseline has fewer than 10 samples;
otherwise, writing `std_dev = √variance` as the source stores it, a zero
`std_dev` makes it true exactly when the value differs from the mean, and a
positive `std_dev` makes it true exactly when the z-score
`|x − mean| / std_dev` strictly exceeds the sensitivity (so `z = s` is not
anomalous). -/
theorem C5_is_anomaly_spec (s : MemoryStore) (agent metric : String) (x sens : ℚ)
    (hvar : ∀ b, s.get_baseline agent metric = some b → 0 ≤ b.variance) :
    (s.get_baseline agent metric = none → s.is_anomaly agent metric x sens = false)
    ∧ (∀ b, s.get_baseline agent metric = some b →
        (b.sample_count < 10 → s.is_anomaly agent metric x sens = false)
        ∧ (10 ≤ b.sample_count →
            (Real.sqrt (b.variance : ℝ) = 0 →
              (s.is_anomaly agent metric x sens = true ↔ x ≠ b.mean))
            ∧ (0 < Real.sqrt (b.variance : ℝ) →
              (s.is_anomaly agent metric x sens = true ↔
                |(x : ℝ) - (b.mean : ℝ)| / Real.sqrt (b.variance : ℝ) > (sens : ℝ))))) := by
  constructor
  · intro h
    unfold MemoryStore.is_anomaly
    rw [h]
  · intro b hb
    have hvb := hvar b hb
    have hval : s.is_anomaly agent metric x sens
        = if b.sample_count < 10 then false else b.is_anomaly x sens := by
      unfold MemoryStore.is_anomaly
      rw [hb]
    constructor
    · intro hlt
      rw [hval, if_pos hlt]
    · intro hge
      have hnlt : ¬ b.sample_count < 10 := not_lt.mpr hge
      rw [hval, if_neg hnlt]
      constructor
      · intro hσ0
        have hv0 : b.variance = 0 := by
          have : (b.variance : ℝ) = 0 := (Real.sqrt_eq_zero (by exact_mod_cast hvb)).mp hσ0
          exact_mod_cast this
        unfold Baseline.is_anomaly
        rw [if_pos hv0]
        simp
      · intro hσ
        exact is_anomaly_z_iff b x sens hvb hσ

/-- A store holding one baseline (12 samples, mean 50, variance 4), used to
instantiate `C5_is_anomaly_spec`. -/
def anomalyWitnessStore : MemoryStore :=
  { mem := ⟨[], [(mkKey "a" "m", ⟨"a", "m", 50, 4, 40, 60, 12, 0⟩)], [], []⟩,
    disk := ⟨[], [], [], []⟩ }

/-- C5 witness: the specification of `is_anomaly` instantiated on a concrete
store with a 12-sample baseline of mean 50 and variance 4, at value 57 and
sensitivity 2. -/
theorem C5_is_anomaly_spec_witness :
    (∀ b, anomalyWitnessStore.get_baseline "a" "m" = some b → 0 ≤ b.variance)
    ∧ ((anomalyWitnessStore.get_baseline "a" "m" = none →
          anomalyWitnessStore.is_anomaly "a" "m" 57 2 = false)
       ∧ (∀ b, anomalyWitnessStore.get_baseline "a" "m" = some b →
           (b.sample_count < 10 → anomalyWitnessStore.is_anomaly "a" "m" 57 2 = false)
           ∧ (10 ≤ b.sample_count →
               (Real.sqrt (b.variance : ℝ) = 0 →
                 (anomalyWitnessStore.is_anomaly "a" "m" 57 2 = true ↔ (57 : ℚ) ≠ b.mean))
               ∧ (0 < Real.sqrt (b.variance : ℝ) →
                 (anomalyWitnessStore.is_anomaly "a" "m" 57 2 = true ↔
                   |((57 : ℚ) : ℝ) - (b.mean : ℝ)| / Real.sqrt (b.variance : ℝ)
                     > ((2 : ℚ) : ℝ)))))) := by
  have hyp : ∀ b, anomalyWitnessStore.get_baseline "a" "m" = some b → 0 ≤ b.variance := by
    intro b hb
    simp +decide [anomalyWitnessStore, MemoryStore.get_baseline, mkKey, dictLookup] at hb
    rw [← hb]
    norm_num
  exact ⟨hyp, C5_is_anomaly_spec anomalyWitnessStore "a" "m" 57 2 hyp⟩
def sumSq (l : List ℚ) : ℚ := (l.map (fun v => v ^ 2)).sum

def listMean (l : List ℚ) : ℚ := l.sum / l.length

def popVariance (l : List ℚ) : ℚ :=
  ((l.map (fun v => (v - listMean l) ^ 2)).sum) / l.length

def recordValues (now : ℚ) (agent metric : String) (vals : List ℚ) (s : MemoryStore) :
    MemoryStore :=
  vals.foldl (fun s v => s.record_observation now ⟨agent, metric, v, now, []⟩) s

theorem sum_sub_sq (c : ℚ) (l : List ℚ) :
    (l.map (fun v => (v - c) ^ 2)).sum = sumSq l - 2 * c * l.sum + l.length * c ^ 2 := by
  induction l with
  | nil => simp [sumSq]
  | cons a t ih =>
    simp only [List.map_cons, List.sum_cons, List.length_cons, sumSq] at ih ⊢
    rw [ih]
    push_cast
    ring

theorem popVariance_eq (l : List ℚ) (h : l ≠ []) :
    popVariance l = sumSq l / l.length - (l.sum / l.length) ^ 2 := by
  have hn : (l.length : ℚ) ≠ 0 := by
    have := List.length_pos.mpr h
    exact_mod_cast Nat.pos_iff_ne_zero.mp this
  unfold popVariance listMean
  rw [sum_sub_sq]
  field_simp
  ring

theorem updateBaseline_stats (b : Baseline) (x now S Q : ℚ) (n : ℕ) (hn : 1 ≤ n)
    (hc : b.sample_count = n) (hm : b.mean = S / n) (hv : b.variance = Q / n - (S / n) ^ 2) :
    (updateBaseline b x now).sample_count = n + 1
    ∧ (updateBaseline b x now).mean = (S + x) / ((n : ℚ) + 1)
    ∧ (updateBaseline b x now).variance
        = (Q + x ^ 2) / ((n : ℚ) + 1) - ((S + x) / ((n : ℚ) + 1)) ^ 2
    ∧ (updateBaseline b x now).min_value = min b.min_value x
    ∧ (updateBaseline b x now).max_value = max b.max_value x := by
  have hnQ : (n : ℚ) ≠ 0 := Nat.cast_ne_zero.mpr (by omega)
  have hn1Q : (n : ℚ) + 1 ≠ 0 := by positivity
  have hif : 1 < b.sample_count + 1 := by omega
  refine ⟨?_, ?_, ?_, ?_, ?_⟩ <;> simp only [updateBaseline]
  · rw [hc]
  · simp only [hc, hm]
    push_cast
    field_simp
    ring
  · rw [if_pos hif]
    simp only [hc, hm, hv]
    push_cast
    field_simp
    ring

theorem foldl_min_spec (l : List ℚ) : ∀ a : ℚ,
    (l.foldl min a = a ∨ l.foldl min a ∈ l)
    ∧ l.foldl min a ≤ a ∧ ∀ v ∈ l, l.foldl min a ≤ v := by
  induction l with
  | nil => simp
  | cons x t ih =>
    intro a
    obtain ⟨hmem, hle, hall⟩ := ih (min a x)
    rw [List.foldl_cons]
    refine ⟨?_, ?_, ?_⟩
    · rcases hmem with h | h
      · rcases min_choice a x with hax | hax
        · exact Or.inl (h.trans hax)
        · exact Or.inr (by simp [h.trans hax])
      · exact Or.inr (List.mem_cons_of_mem _ h)
    · exact hle.trans (min_le_left _ _)
    · intro v hv
      rcases List.mem_cons.mp hv with rfl | hv
      · exact hle.trans (min_le_right _ _)
      · exact hall v hv

theorem foldl_max_spec (l : List ℚ) : ∀ a : ℚ,
    (l.foldl max a = a ∨ l.foldl max a ∈ l)
    ∧ a ≤ l.foldl max a ∧ ∀ v ∈ l, v ≤ l.foldl max a := by
  induction l with
  | nil => simp
  | cons x t ih =>
    intro a
    obtain ⟨hmem, hle, hall⟩ := ih (max a x)
    rw [List.foldl_cons]
    refine ⟨?_, ?_, ?_⟩
    · rcases hmem with h | h
      · rcases max_choice a x with hax | hax
        · exact Or.inl (h.trans hax)
        · exact Or.inr (by simp [h.trans hax])
      · exact Or.inr (List.mem_cons_of_mem _ h)
    · exact (le_max_left _ _).trans hle
    · intro v hv
      rcases List.mem_cons.mp hv with rfl | hv
      · exact (le_max_right _ _).trans hle
      · exact hall v hv

theorem foldl_updateBaseline_stats (now : ℚ) (l : List ℚ) :
    ∀ (b : Baseline) (S Q : ℚ) (n : ℕ), 1 ≤ n →
      b.sample_count = n → b.mean = S / n → b.variance = Q / n - (S / n) ^ 2 →
      (l.foldl (fun b v => updateBaseline b v now) b).sample_count = n + l.length
      ∧ (l.foldl (fun b v => updateBaseline b v now) b).mean
          = (S + l.sum) / ((n : ℚ) + l.length)
      ∧ (l.foldl (fun b v => updateBaseline b v now) b).variance
          = (Q + sumSq l) / ((n : ℚ) + l.length)
            - ((S + l.sum) / ((n : ℚ) + l.length)) ^ 2
      ∧ (l.foldl (fun b v => updateBaseline b v now) b).min_value = l.foldl min b.min_value
      ∧ (l.foldl (fun b v => updateBaseline b v now) b).max_value
          = l.foldl max b.max_value := by
  induction l with
  | nil =>
    intro b S Q n hn hc hm hv
    simp only [List.foldl_nil, List.length_nil, List.sum_nil, sumSq, List.map_nil,
      Nat.cast_zero, add_zero]
    exact ⟨hc, by rw [hm], by rw [hv], by simp, by simp⟩
  | cons x t ih =>
    intro b S Q n hn hc hm hv
    obtain ⟨h1, h2, h3, h4, h5⟩ := updateBaseline_stats b x now S Q n hn hc hm hv
    have hm' : (updateBaseline b x now).mean = (S + x) / ((n + 1 : ℕ) : ℚ) := by
      rw [h2]; push_cast; ring_nf
    have hv' : (updateBaseline b x now).variance
        = (Q + x ^ 2) / ((n + 1 : ℕ) : ℚ) - ((S + x) / ((n + 1 : ℕ) : ℚ)) ^ 2 := by
      rw [h3]; push_cast; ring_nf
    obtain ⟨g1, g2, g3, g4, g5⟩ := ih (updateBaseline b x now) (S + x) (Q + x ^ 2) (n + 1)
      (by omega) h1 hm' hv'
    rw [List.foldl_cons]
    refine ⟨?_, ?_, ?_, ?_, ?_⟩
    · rw [g1, List.length_cons]; omega
    · rw [g2, List.sum_cons, List.length_cons]
      push_cast
      ring_nf
    · rw [g3, List.sum_cons, List.length_cons]
      have : sumSq (x :: t) = x ^ 2 + sumSq t := by simp [sumSq]
      rw [this]
      push_cast
      ring_nf
    · rw [g4, h4, List.foldl_cons]
    · rw [g5, h5, List.foldl_cons]

theorem record_observation_get_baseline_same (s : MemoryStore) (now : ℚ) (obs : Observation) :
    (s.record_observation now obs).get_baseline obs.agent obs.metric
      = some (match s.get_baseline obs.agent obs.metric with
              | none => newBaseline obs.agent obs.metric obs.value now
              | some b => updateBaseline b obs.value now) := by
  unfold MemoryStore.get_baseline
  unfold MemoryStore.record_observation MemoryStore.update_baseline
    MemoryStore.save_baselines MemoryStore.save_observations
  cases h : dictLookup s.mem.baselines (mkKey obs.agent obs.metric) <;>
    simp [h, dictLookup_dictInsert_self]

theorem recordValues_get_some (now : ℚ) (agent metric : String) :
    ∀ (vals : List ℚ) (s : MemoryStore) (b : Baseline),
      s.get_baseline agent metric = some b →
      (recordValues now agent metric vals s).get_baseline agent metric
        = some (vals.foldl (fun b v => updateBaseline b v now) b) := by
  intro vals
  induction vals with
  | nil => intro s b hb; simpa [recordValues] using hb
  | cons v t ih =>
    intro s b hb
    have h1 := record_observation_get_baseline_same s now ⟨agent, metric, v, now, []⟩
    rw [show (⟨agent, metric, v, now, []⟩ : Observation).agent = agent from rfl,
        show (⟨agent, metric, v, now, []⟩ : Observation).metric = metric from rfl] at h1
    rw [hb] at h1
    have h2 := ih (s.record_observation now ⟨agent, metric, v, now, []⟩)
      (updateBaseline b v now) h1
    simpa [recordValues, List.foldl_cons] using h2

/-- C4: starting with no baseline for `(agent, metric)`, recording the
numeric values `v₁..vₙ` (n ≥ 1) yields a baseline with `sample_count = n`,
`mean` the arithmetic mean, `variance` the population variance (divisor `n`)
— hence `std_dev = √variance` the population standard deviation — and
`min_value`/`max_value` the least/greatest recorded value, all over exact
arithmetic. -/
theorem C4_welford_correct (s : MemoryStore) (agent metric : String) (now : ℚ)
    (vals : List ℚ) (h0 : s.get_baseline agent metric = none) (hne : vals ≠ []) :
    ∃ b, (recordValues now agent metric vals s).get_baseline agent metric = some b
      ∧ b.sample_count = vals.length
      ∧ b.mean = vals.sum / vals.length
      ∧ b.variance = popVariance vals
      ∧ Real.sqrt (b.variance : ℝ) = Real.sqrt ((popVariance vals : ℚ) : ℝ)
      ∧ b.min_value ∈ vals ∧ (∀ v ∈ vals, b.min_value ≤ v)
      ∧ b.max_value ∈ vals ∧ (∀ v ∈ vals, v ≤ b.max_value) := by
  obtain ⟨v, vs, rfl⟩ := List.exists_cons_of_ne_nil hne
  have h1 : ((s.record_observation now ⟨agent, metric, v, now, []⟩).get_baseline agent metric)
      = some (newBaseline agent metric v now) := by
    have h := record_observation_get_baseline_same s now ⟨agent, metric, v, now, []⟩
    rw [show (⟨agent, metric, v, now, []⟩ : Observation).agent = agent from rfl,
        show (⟨agent, metric, v, now, []⟩ : Observation).metric = metric from rfl] at h
    rw [h0] at h
    exact h
  have h2 := recordValues_get_some now agent metric vs _ _ h1
  have hstep : recordValues now agent metric (v :: vs) s
      = recordValues now agent metric vs (s.record_observation now ⟨agent, metric, v, now, []⟩) :=
    rfl
  obtain ⟨g1, g2, g3, g4, g5⟩ := foldl_updateBaseline_stats now vs
    (newBaseline agent metric v now) v (v ^ 2) 1 le_rfl rfl
    (by simp [newBaseline]) (by simp [newBaseline])
  rw [hstep]
  refine ⟨_, h2, ?_, ?_, ?_, ?_, ?_, ?_, ?_, ?_⟩
  · rw [g1]; simp [Nat.add_comm]
  · rw [g2, List.sum_cons, List.length_cons]
    push_cast
    ring_nf
  · rw [g3, popVariance_eq _ hne]
    rw [List.sum_cons, List.length_cons, show sumSq (v :: vs) = v ^ 2 + sumSq vs by simp [sumSq]]
    push_cast
    ring_nf
  · rw [g3, popVariance_eq _ hne]
    rw [List.sum_cons, List.length_cons, show sumSq (v :: vs) = v ^ 2 + sumSq vs by simp [sumSq]]
    push_cast
    ring_nf
  · have := (foldl_min_spec vs v).1
    rw [g4, show (newBaseline agent metric v now).min_value = v from rfl]
    rcases this with h | h
    · rw [h]; exact List.mem_cons_self _ _
    · exact List.mem_cons_of_mem _ h
  · intro w hw
    obtain ⟨-, hle, hall⟩ := foldl_min_spec vs v
    rw [g4, show (newBaseline agent metric v now).min_value = v from rfl]
    rcases List.mem_cons.mp hw with rfl | hw
    · exact hle
    · exact hall w hw
  · have := (foldl_max_spec vs v).1
    rw [g5, show (newBaseline agent metric v now).max_value = v from rfl]
    rcases this with h | h
    · rw [h]; exact List.mem_cons_self _ _
    · exact List.mem_cons_of_mem _ h
  · intro w hw
    obtain ⟨-, hle, hall⟩ := foldl_max_spec vs v
    rw [g5, show (newBaseline agent metric v now).max_value = v from rfl]
    rcases List.mem_cons.mp hw with rfl | hw
    · exact hle
    · exact hall w hw

/-- C4 witness: recording values 1, 2, 3 on an empty store yields a
baseline satisfying all the Welford conclusions. -/
theorem C4_welford_correct_witness :
    (emptyStore.get_baseline "a" "m" = none ∧ ([1, 2, 3] : List ℚ) ≠ [])
    ∧ ∃ b, (recordValues 0 "a" "m" [1, 2, 3] emptyStore).get_baseline "a" "m" = some b
      ∧ b.sample_count = ([1, 2, 3] : List ℚ).length
      ∧ b.mean = ([1, 2, 3] : List ℚ).sum / ([1, 2, 3] : List ℚ).length
      ∧ b.variance = popVariance [1, 2, 3]
      ∧ Real.sqrt (b.variance : ℝ) = Real.sqrt ((popVariance [1, 2, 3] : ℚ) : ℝ)
      ∧ b.min_value ∈ ([1, 2, 3] : List ℚ) ∧ (∀ v ∈ ([1, 2, 3] : List ℚ), b.min_value ≤ v)
      ∧ b.max_value ∈ ([1, 2, 3] : List ℚ) ∧ (∀ v ∈ ([1, 2, 3] : List ℚ), v ≤ b.max_value) :=
  ⟨⟨rfl, by simp⟩, C4_welford_correct emptyStore "a" "m" 0 [1, 2, 3] rfl (by simp)⟩
theorem feedbackLE_trans (a b c : Feedback) (hab : feedbackLE a b = true)
    (hbc : feedbackLE b c = true) : feedbackLE a c = true := by
  simp only [feedbackLE, Bool.or_eq_true, Bool.and_eq_true, decide_eq_true_eq] at *
  rcases hab with h1 | ⟨h1, h1c⟩ <;> rcases hbc with h2 | ⟨h2, h2c⟩
  · exact Or.inl (h1.trans h2)
  · exact Or.inl (h2 ▸ h1)
  · exact Or.inl (h1 ▸ h2)
  · exact Or.inr ⟨h1.trans h2, h1c.trans h2c⟩

theorem feedbackLE_total (a b : Feedback) : (feedbackLE a b || feedbackLE b a) = true := by
  simp only [feedbackLE, Bool.or_eq_true, Bool.and_eq_true, decide_eq_true_eq]
  rcases Nat.lt_trichotomy a.priority.toNat b.priority.toNat with h | h | h
  · exact Or.inl (Or.inl h)
  · rcases le_total a.category b.category with hc | hc
    · exact Or.inl (Or.inr ⟨h, hc⟩)
    · exact Or.inr (Or.inr ⟨h.symm, hc⟩)
  · exact Or.inr (Or.inl h)

/-- C7: aggregation output is a permutation of the flattened feedback —
one synthetic `high` "Agent error: <error>" per errored result, followed by
the result's own feedback — filtered to `priority ≤ min_priority`, and it is
sorted by `(priority, category)`: whenever `a` precedes `b`, `a`'s numeric
priority is at most `b`'s, and on equal priorities categories ascend. -/
theorem C7_aggregate_priority_order (results : List AgentResult) (min_priority : Priority) :
    (aggregate_feedback results min_priority).Perm
      ((results.flatMap (fun r => errFeedback r ++ r.feedback)).filter
        (fun f => decide (f.priority.toNat ≤ min_priority.toNat)))
    ∧ (aggregate_feedback results min_priority).Pairwise
        (fun a b => a.priority.toNat ≤ b.priority.toNat
          ∧ (a.priority.toNat = b.priority.toNat → a.category ≤ b.category)) := by
  constructor
  · exact List.mergeSort_perm _ _
  · have hs := @List.sorted_mergeSort Feedback feedbackLE feedbackLE_trans feedbackLE_total
      ((results.flatMap (fun r => errFeedback r ++ r.feedback)).filter
        (fun f => decide (f.priority.toNat ≤ min_priority.toNat)))
    refine hs.imp ?_
    intro a b h
    simp only [feedbackLE, Bool.or_eq_true, Bool.and_eq_true, decide_eq_true_eq] at h
    rcases h with h | ⟨he, hc⟩
    · exact ⟨Nat.le_of_lt h, fun heq => absurd heq (Nat.ne_of_lt h)⟩
    · exact ⟨Nat.le_of_eq he, fun _ => hc⟩
/-- One `receive_user_feedback` call: its time, alert type, feedback kind
and context. -/
structure UFCall where
  now : ℚ
  alert_type : String
  feedback : String
  context : Ctx
deriving DecidableEq

/-- A sequence of `receive_user_feedback` calls applied to an agent. -/
def applyCalls (st : AgentState) (calls : List UFCall) : AgentState :=
  calls.foldl (fun st c => st.receive_user_feedback c.now c.alert_type c.feedback c.context) st

/-- The sensitivity `is_anomaly` will use for a given alert type: the stored
override when one is set, else `DEFAULT_SENSITIVITY = 2.0`. -/
def effSens (st : AgentState) (alert_type : String) : ℚ :=
  (dictLookup st.sensitivity alert_type).getD DEFAULT_SENSITIVITY

theorem applyCalls_cons (st : AgentState) (c : UFCall) (calls : List UFCall) :
    applyCalls st (c :: calls)
      = applyCalls (st.receive_user_feedback c.now c.alert_type c.feedback c.context) calls := rfl

theorem applyCalls_append (st : AgentState) (l₁ l₂ : List UFCall) :
    applyCalls st (l₁ ++ l₂) = applyCalls (applyCalls st l₁) l₂ := by
  unfold applyCalls
  simp [List.foldl_append]

theorem receive_sensitivity (st : AgentState) (now : ℚ) (t fbk : String) (ctx : Ctx) :
    (st.receive_user_feedback now t fbk ctx).sensitivity
      = if fbk = "too_sensitive" then
          dictInsert st.sensitivity t (min 4 (effSens st t + 1/2))
        else if fbk = "too_late" then
          dictInsert st.sensitivity t (max 1 (effSens st t - 1/2))
        else st.sensitivity := by
  unfold AgentState.receive_user_feedback effSens
  by_cases h1 : fbk = "too_sensitive"
  · simp [h1]
  · by_cases h2 : fbk = "too_late" <;> simp [h1, h2]

theorem effSens_receive (st : AgentState) (now : ℚ) (t fbk : String) (ctx : Ctx) (a : String) :
    effSens (st.receive_user_feedback now t fbk ctx) a
      = if fbk = "too_sensitive" ∧ t = a then min 4 (effSens st a + 1/2)
        else if fbk = "too_late" ∧ t = a then max 1 (effSens st a - 1/2)
        else effSens st a := by
  unfold effSens
  rw [receive_sensitivity]
  by_cases h1 : fbk = "too_sensitive"
  · by_cases h2 : t = a
    · subst h2
      simp [h1, dictLookup_dictInsert_self, effSens]
    · simp [h1, h2, dictLookup_dictInsert, effSens]
  · by_cases h3 : fbk = "too_late"
    · by_cases h2 : t = a
      · subst h2
        simp [h1, h3, dictLookup_dictInsert_self, effSens]
      · simp [h1, h3, h2, dictLookup_dictInsert, effSens]
    · simp [h1, h3]

theorem effSens_inv (calls : List UFCall) : ∀ st : AgentState,
    (∀ a, 1 ≤ effSens st a ∧ effSens st a ≤ 4) →
    ∀ a, 1 ≤ effSens (applyCalls st calls) a ∧ effSens (applyCalls st calls) a ≤ 4 := by
  induction calls with
  | nil =>
    intro st h a
    simpa [applyCalls] using h a
  | cons c t ih =>
    intro st hst a
    rw [applyCalls_cons]
    refine ih _ ?_ a
    intro a'
    rw [effSens_receive]
    split_ifs with hc1 hc2
    · obtain ⟨l, u⟩ := hst a'
      exact ⟨le_min (by norm_num) (by linarith), (min_le_left _ _)⟩
    · obtain ⟨l, u⟩ := hst a'
      exact ⟨le_max_left _ _, max_le (by norm_num) (by linarith)⟩
    · exact hst a'

theorem effSens_empty (st : AgentState) (h : st.sensitivity = []) (a : String) :
    effSens st a = 2 := by
  unfold effSens
  rw [h]
  rfl

/-- C8: for every call sequence on an agent starting with no overrides, each
per-alert-type sensitivity stays in [1.0, 4.0]; a `too_sensitive` call sets
it to `min(4, s + 0.5)`, a `too_late` call to `max(1, s − 0.5)`, any other
feedback kind leaves it unchanged, and the two adjustments saturate at 4.0
and 1.0 respectively. -/
theorem C8_sensitivity_bounds (st0 : AgentState) (calls : List UFCall) (a : String)
    (h0 : st0.sensitivity = []) :
    (1 ≤ effSens (applyCalls st0 calls) a ∧ effSens (applyCalls st0 calls) a ≤ 4)
    ∧ (∀ now ctx, effSens (applyCalls st0 (calls ++ [⟨now, a, "too_sensitive", ctx⟩])) a
        = min 4 (effSens (applyCalls st0 calls) a + 1/2))
    ∧ (∀ now ctx, effSens (applyCalls st0 (calls ++ [⟨now, a, "too_late", ctx⟩])) a
        = max 1 (effSens (applyCalls st0 calls) a - 1/2))
    ∧ (∀ now ctx fbk, fbk ≠ "too_sensitive" → fbk ≠ "too_late" →
        effSens (applyCalls st0 (calls ++ [⟨now, a, fbk, ctx⟩])) a
          = effSens (applyCalls st0 calls) a)
    ∧ (effSens (applyCalls st0 calls) a = 4 → ∀ now ctx,
        effSens (applyCalls st0 (calls ++ [⟨now, a, "too_sensitive", ctx⟩])) a = 4)
    ∧ (effSens (applyCalls st0 calls) a = 1 → ∀ now ctx,
        effSens (applyCalls st0 (calls ++ [⟨now, a, "too_late", ctx⟩])) a = 1) := by
  have hbase : ∀ a', 1 ≤ effSens st0 a' ∧ effSens st0 a' ≤ 4 := by
    intro a'
    rw [effSens_empty st0 h0 a']
    norm_num
  have hbounds := effSens_inv calls st0 hbase a
  have hts : ∀ now ctx, effSens (applyCalls st0 (calls ++ [⟨now, a, "too_sensitive", ctx⟩])) a
      = min 4 (effSens (applyCalls st0 calls) a + 1/2) := by
    intro now ctx
    rw [applyCalls_append, applyCalls_cons]
    show effSens ((applyCalls st0 calls).receive_user_feedback now a "too_sensitive" ctx) a = _
    rw [effSens_receive]
    simp
  have htl : ∀ now ctx, effSens (applyCalls st0 (calls ++ [⟨now, a, "too_late", ctx⟩])) a
      = max 1 (effSens (applyCalls st0 calls) a - 1/2) := by
    intro now ctx
    rw [applyCalls_append, applyCalls_cons]
    show effSens ((applyCalls st0 calls).receive_user_feedback now a "too_late" ctx) a = _
    rw [effSens_receive]
    simp +decide
  refine ⟨hbounds, hts, htl, ?_, ?_, ?_⟩
  · intro now ctx fbk hf1 hf2
    rw [applyCalls_append, applyCalls_cons]
    show effSens ((applyCalls st0 calls).receive_user_feedback now a fbk ctx) a = _
    rw [effSens_receive]
    simp [hf1, hf2]
  · intro h4 now ctx
    rw [hts now ctx, h4]
    norm_num [min_def]
  · intro h1 now ctx
    rw [htl now ctx, h1]
    norm_num [max_def]

/-- C8 witness: two `too_sensitive` calls on a fresh agent put the
sensitivity at 3.0, inside [1, 4], and the step equations hold there. -/
theorem C8_sensitivity_bounds_witness :
    ((⟨"x", emptyStore, [], []⟩ : AgentState).sensitivity = [])
    ∧ ((1 ≤ effSens (applyCalls ⟨"x", emptyStore, [], []⟩
          [⟨0, "m", "too_sensitive", []⟩, ⟨0, "m", "too_sensitive", []⟩]) "m"
        ∧ effSens (applyCalls ⟨"x", emptyStore, [], []⟩
          [⟨0, "m", "too_sensitive", []⟩, ⟨0, "m", "too_sensitive", []⟩]) "m" ≤ 4)
      ∧ (∀ now ctx, effSens (applyCalls ⟨"x", emptyStore, [], []⟩
            ([⟨0, "m", "too_sensitive", []⟩, ⟨0, "m", "too_sensitive", []⟩]
              ++ [⟨now, "m", "too_sensitive", ctx⟩])) "m"
          = min 4 (effSens (applyCalls ⟨"x", emptyStore, [], []⟩
              [⟨0, "m", "too_sensitive", []⟩, ⟨0, "m", "too_sensitive", []⟩]) "m" + 1/2))
      ∧ (∀ now ctx, effSens (applyCalls ⟨"x", emptyStore, [], []⟩
            ([⟨0, "m", "too_sensitive", []⟩, ⟨0, "m", "too_sensitive", []⟩]
              ++ [⟨now, "m", "too_late", ctx⟩])) "m"
          = max 1 (effSens (applyCalls ⟨"x", emptyStore, [], []⟩
              [⟨0, "m", "too_sensitive", []⟩, ⟨0, "m", "too_sensitive", []⟩]) "m" - 1/2))
      ∧ (∀ now ctx fbk, fbk ≠ "too_sensitive" → fbk ≠ "too_late" →
          effSens (applyCalls ⟨"x", emptyStore, [], []⟩
            ([⟨0, "m", "too_sensitive", []⟩, ⟨0, "m", "too_sensitive", []⟩]
              ++ [⟨now, "m", fbk, ctx⟩])) "m"
          = effSens (applyCalls ⟨"x", emptyStore, [], []⟩
              [⟨0, "m", "too_sensitive", []⟩, ⟨0, "m", "too_sensitive", []⟩]) "m")
      ∧ (effSens (applyCalls ⟨"x", emptyStore, [], []⟩
            [⟨0, "m", "too_sensitive", []⟩, ⟨0, "m", "too_sensitive", []⟩]) "m" = 4 →
          ∀ now ctx, effSens (applyCalls ⟨"x", emptyStore, [], []⟩
            ([⟨0, "m", "too_sensitive", []⟩, ⟨0, "m", "too_sensitive", []⟩]
              ++ [⟨now, "m", "too_sensitive", ctx⟩])) "m" = 4)
      ∧ (effSens (applyCalls ⟨"x", emptyStore, [], []⟩
            [⟨0, "m", "too_sensitive", []⟩, ⟨0, "m", "too_sensitive", []⟩]) "m" = 1 →
          ∀ now ctx, effSens (applyCalls ⟨"x", emptyStore, [], []⟩
            ([⟨0, "m", "too_sensitive", []⟩, ⟨0, "m", "too_sensitive", []⟩]
              ++ [⟨now, "m", "too_late", ctx⟩])) "m" = 1)) :=
  ⟨rfl, C8_sensitivity_bounds ⟨"x", emptyStore, [], []⟩
    [⟨0, "m", "too_sensitive", []⟩, ⟨0, "m", "too_sensitive", []⟩] "m" rfl⟩

theorem isSome_sensitivity_after (calls : List UFCall) : ∀ (st : AgentState) (m : String),
    (dictLookup (applyCalls st calls).sensitivity m).isSome
      ↔ (dictLookup st.sensitivity m).isSome
        ∨ ∃ c ∈ calls, c.alert_type = m
            ∧ (c.feedback = "too_sensitive" ∨ c.feedback = "too_late") := by
  induction calls with
  | nil => simp [applyCalls]
  | cons c t ih =>
    intro st m
    rw [applyCalls_cons, ih]
    rw [receive_sensitivity]
    by_cases h1 : c.feedback = "too_sensitive"
    · by_cases hm : c.alert_type = m
      · simp [h1, hm, dictLookup_dictInsert]
      · simp only [if_pos h1, dictLookup_dictInsert, if_neg hm, List.mem_cons]
        constructor
        · rintro (h | ⟨c', hc', hp⟩)
          · exact Or.inl h
          · exact Or.inr ⟨c', Or.inr hc', hp⟩
        · rintro (h | ⟨c', (rfl | hc'), hp⟩)
          · exact Or.inl h
          · exact absurd hp.1 hm
          · exact Or.inr ⟨c', hc', hp⟩
    · by_cases h2 : c.feedback = "too_late"
      · by_cases hm : c.alert_type = m
        · simp [h1, h2, hm, dictLookup_dictInsert]
        · simp only [if_neg h1, if_pos h2, dictLookup_dictInsert, if_neg hm, List.mem_cons]
          constructor
          · rintro (h | ⟨c', hc', hp⟩)
            · exact Or.inl h
            · exact Or.inr ⟨c', Or.inr hc', hp⟩
          · rintro (h | ⟨c', (rfl | hc'), hp⟩)
            · exact Or.inl h
            · exact absurd hp.1 hm
            · exact Or.inr ⟨c', hc', hp⟩
      · simp only [if_neg h1, if_neg h2, List.mem_cons]
        constructor
        · rintro (h | ⟨c', hc', hp⟩)
          · exact Or.inl h
          · exact Or.inr ⟨c', Or.inr hc', hp⟩
        · rintro (h | ⟨c', (rfl | hc'), hp⟩)
          · exact Or.inl h
          · rcases hp.2 with h' | h'
            · exact absurd h' h1
            · exact absurd h' h2
          · exact Or.inr ⟨c', hc', hp⟩

/-- C9: `is_anomaly(metric, value)` delegates to the store's anomaly test
with the sensitivity override stored under the metric's name when one is
set, else the default 2.0 — and an override exists exactly when some prior
`too_sensitive` or `too_late` user feedback was received for that alert
type. -/
theorem C9_is_anomaly_sensitivity (st0 : AgentState) (calls : List UFCall) (m : String)
    (x : ℚ) (h0 : st0.sensitivity = []) :
    (applyCalls st0 calls).is_anomaly m x
      = (applyCalls st0 calls).memory.is_anomaly (applyCalls st0 calls).name m x
          ((dictLookup (applyCalls st0 calls).sensitivity m).getD DEFAULT_SENSITIVITY)
    ∧ ((dictLookup (applyCalls st0 calls).sensitivity m).isSome
        ↔ ∃ c ∈ calls, c.alert_type = m
            ∧ (c.feedback = "too_sensitive" ∨ c.feedback = "too_late")) := by
  refine ⟨rfl, ?_⟩
  rw [isSome_sensitivity_after, h0]
  simp [dictLookup]

/-- C9 witness: after one `too_sensitive` feedback for alert type "m", the
override exists and `is_anomaly` uses it on a fresh agent. -/
theorem C9_is_anomaly_sensitivity_witness :
    ((⟨"x", emptyStore, [], []⟩ : AgentState).sensitivity = [])
    ∧ ((applyCalls ⟨"x", emptyStore, [], []⟩ [⟨0, "m", "too_sensitive", []⟩]).is_anomaly "m" 5
        = (applyCalls ⟨"x", emptyStore, [], []⟩ [⟨0, "m", "too_sensitive", []⟩]).memory.is_anomaly
            (applyCalls ⟨"x", emptyStore, [], []⟩ [⟨0, "m", "too_sensitive", []⟩]).name "m" 5
            ((dictLookup (applyCalls ⟨"x", emptyStore, [], []⟩
                [⟨0, "m", "too_sensitive", []⟩]).sensitivity "m").getD DEFAULT_SENSITIVITY)
      ∧ ((dictLookup (applyCalls ⟨"x", emptyStore, [], []⟩
            [⟨0, "m", "too_sensitive", []⟩]).sensitivity "m").isSome
          ↔ ∃ c ∈ [(⟨0, "m", "too_sensitive", []⟩ : UFCall)], c.alert_type = "m"
              ∧ (c.feedback = "too_sensitive" ∨ c.feedback = "too_late"))) :=
  ⟨rfl, C9_is_anomaly_sensitivity ⟨"x", emptyStore, [], []⟩ [⟨0, "m", "too_sensitive", []⟩]
    "m" 5 rfl⟩

/-- The message prefix the suppression path prepends. -/
def suppressedTag : String := "[Suppressed] "

/-- Whether a message starts with the `"[Suppressed] "` tag. -/
def isSuppressedMsg (msg : String) : Bool :=
  decide (msg.data.take suppressedTag.data.length = suppressedTag.data)

theorem isSuppressedMsg_append_tag (m : String) :
    isSuppressedMsg (suppressedTag ++ m) = true := by
  unfold isSuppressedMsg
  rw [String.data_append, List.take_left]
  simp

theorem isSuppressedMsg_agent_error (e : String) :
    isSuppressedMsg ("Agent error: " ++ e) = false := by
  unfold isSuppressedMsg
  rw [String.data_append,
    show suppressedTag.data.length = ("Agent error: " : String).data.length from by decide,
    List.take_left]
  decide

theorem execCmd_inv (now : ℚ) (st : AgentState) (cmd : AgentCmd)
    (hinv : ∀ f ∈ st.feedbackList, isSuppressedMsg f.message = true → f.priority = Priority.info)
    (hcmd : isSuppressedMsg cmd.message = false) :
    ∀ f ∈ (execCmd now st cmd).feedbackList,
      isSuppressedMsg f.message = true → f.priority = Priority.info := by
  cases cmd with
  | plain p m d =>
    intro f hf htag
    simp only [execCmd, AgentState.add_feedback] at hf
    rcases List.mem_append.mp hf with h | h
    · exact hinv f h htag
    · simp only [List.mem_singleton] at h
      rw [h] at htag
      simp only [AgentCmd.message] at hcmd
      rw [hcmd] at htag
      cases htag
  | withContext p m t c d =>
    intro f hf htag
    simp only [execCmd, AgentState.add_feedback_with_context] at hf
    by_cases hs : (st.should_suppress_alert now t c).1
    · simp only [hs, if_true, AgentState.add_feedback,
        should_suppress_alert_snd_feedbackList] at hf
      rcases List.mem_append.mp hf with h | h
      · exact hinv f h htag
      · simp only [List.mem_singleton] at h
        rw [h]
    · simp only [hs, if_false, AgentState.add_feedback,
        should_suppress_alert_snd_feedbackList] at hf
      rcases List.mem_append.mp hf with h | h
      · exact hinv f h htag
      · simp only [List.mem_singleton] at h
        rw [h] at htag
        simp only [AgentCmd.message] at hcmd
        rw [hcmd] at htag
        cases htag

theorem execCmds_inv (now : ℚ) (cmds : List AgentCmd) : ∀ st : AgentState,
    (∀ f ∈ st.feedbackList, isSuppressedMsg f.message = true → f.priority = Priority.info) →
    (∀ cmd ∈ cmds, isSuppressedMsg cmd.message = false) →
    ∀ f ∈ (execCmds now st cmds).feedbackList,
      isSuppressedMsg f.message = true → f.priority = Priority.info := by
  induction cmds with
  | nil =>
    intro st hinv _
    simpa [execCmds] using hinv
  | cons cmd t ih =>
    intro st hinv hcmds
    have h1 := execCmd_inv now st cmd hinv (hcmds cmd (List.mem_cons_self _ _))
    have h2 := ih (execCmd now st cmd) h1 (fun c hc => hcmds c (List.mem_cons_of_mem _ hc))
    simpa [execCmds, List.foldl_cons] using h2

/-- C10: suppressed alerts (priority `info`, message tagged
`"[Suppressed] "`) are filtered out by `check_health`'s aggregation at the
default `min_priority = low`: for any orchestrator run of agents built on
the substrate whose authored messages do not carry the tag, no feedback in
the returned list has the `"[Suppressed] "` prefix — the suppressed entry
exists only in the per-agent feedback before aggregation. -/
theorem C10_suppressed_excluded (items : List RunItem)
    (hok : ∀ now st cmds, RunItem.ok now st cmds ∈ items →
        st.feedbackList = [] ∧ ∀ cmd ∈ cmds, isSuppressedMsg cmd.message = false) :
    ∀ f ∈ check_health_feedback (items.map RunItem.result),
      isSuppressedMsg f.message = false := by
  intro f hf
  simp only [check_health_feedback, aggregate_feedback, List.mem_mergeSort,
    List.mem_filter, List.mem_flatMap, decide_eq_true_eq, List.mem_map] at hf
  obtain ⟨⟨r, ⟨item, hitem, rfl⟩, hfr⟩, hpr⟩ := hf
  cases item with
  | failed name e =>
    rcases List.mem_append.mp hfr with h | h
    · unfold RunItem.result runAgentErr errFeedback at h
      by_cases he : e = ""
      · simp [he] at h
      · simp only [if_neg he, List.mem_singleton] at h
        rw [h]
        exact isSuppressedMsg_agent_error e
    · unfold RunItem.result runAgentErr at h
      simp at h
  | ok now st cmds =>
    rcases List.mem_append.mp hfr with h | h
    · unfold RunItem.result runAgentOk errFeedback at h
      simp at h
    · unfold RunItem.result runAgentOk AgentState.get_feedback at h
      simp only at h
      obtain ⟨hempty, hcmds⟩ := hok now st cmds hitem
      by_contra htag
      rw [Bool.not_eq_false] at htag
      have hstart : ∀ f ∈ st.feedbackList,
          isSuppressedMsg f.message = true → f.priority = Priority.info := by
        rw [hempty]
        intro f hf
        cases hf
      have hinfo := execCmds_inv now cmds st hstart hcmds f h htag
      rw [hinfo] at hpr
      exact absurd hpr (by decide)

/-- A suppression pattern at confidence 0.8 for storage warnings on V1. -/
def suppressDemoPattern : Pattern :=
  ⟨"storage", "suppress_storage_warning", "d", [("volume", Value.str "V1")],
   "ignore", 4/5, 0, none, 0⟩

/-- A storage agent whose store holds `suppressDemoPattern`. -/
def suppressDemoAgent : AgentState :=
  ⟨"storage",
   { mem := ⟨[], [], [(mkKey "storage" "suppress_storage_warning", suppressDemoPattern)], []⟩,
     disk := ⟨[], [], [], []⟩ }, [], []⟩

/-- One contextual storage-warning alert matching the pattern. -/
def suppressDemoCmd : AgentCmd :=
  .withContext Priority.medium "Volume V1 at 82.0% capacity" "storage_warning"
    [("volume", Value.str "V1")] none

/-- The one-agent run emitting that alert. -/
def suppressDemoItems : List RunItem := [RunItem.ok 0 suppressDemoAgent [suppressDemoCmd]]

/-- C10 witness: in the demo run the alert is suppressed — the agent's own
feedback holds exactly one `info` entry tagged `"[Suppressed] "` — yet the
`check_health` output is empty, so no tagged feedback appears in it. -/
theorem C10_suppressed_excluded_witness :
    (∀ now st cmds, RunItem.ok now st cmds ∈ suppressDemoItems →
        st.feedbackList = [] ∧ ∀ cmd ∈ cmds, isSuppressedMsg cmd.message = false)
    ∧ (∀ f ∈ check_health_feedback (suppressDemoItems.map RunItem.result),
        isSuppressedMsg f.message = false)
    ∧ (∃ r ∈ suppressDemoItems.map RunItem.result, ∃ f ∈ r.feedback,
        isSuppressedMsg f.message = true ∧ f.priority = Priority.info)
    ∧ check_health_feedback (suppressDemoItems.map RunItem.result) = [] := by
  have h7 : (7 : ℚ)/10 ≤ 4/5 := by norm_num
  have hyp : ∀ now st cmds, RunItem.ok now st cmds ∈ suppressDemoItems →
      st.feedbackList = [] ∧ ∀ cmd ∈ cmds, isSuppressedMsg cmd.message = false := by
    intro now st cmds hmem
    simp only [suppressDemoItems, List.mem_singleton, RunItem.ok.injEq] at hmem
    obtain ⟨-, rfl, rfl⟩ := hmem
    exact ⟨rfl, by decide⟩
  have hfull : suppressDemoItems.map RunItem.result
      = [⟨"storage",
          [⟨Priority.info, "storage", "[Suppressed] Volume V1 at 82.0% capacity", none⟩],
          none⟩] := by
    simp +decide [suppressDemoItems, RunItem.result, runAgentOk, execCmds, execCmd,
      AgentState.add_feedback_with_context, AgentState.should_suppress_alert,
      AgentState.add_feedback, AgentState.get_feedback, MemoryStore.get_patterns,
      MemoryStore.trigger_pattern, MemoryStore.get_pattern, MemoryStore.save_patterns,
      matchesPattern, suppressDemoAgent, suppressDemoPattern, suppressDemoCmd, mkKey,
      dictLookup, dictInsert, List.find?, h7]
  refine ⟨hyp, C10_suppressed_excluded suppressDemoItems hyp, ?_, ?_⟩
  · rw [hfull]
    refine ⟨_, List.mem_singleton_self _, _, List.mem_singleton_self _, by decide, rfl⟩
  · rw [hfull]
    simp +decide [check_health_feedback, aggregate_feedback, errFeedback, Priority.toNat]
